import Mathlib

/-!
Verification development for a REST CRUD service managing "participant"
records (Node.js / Express / PostgreSQL, `src/index.js`).

The handlers of `src/index.js` are shallowly embedded as pure Lean
functions.  The PostgreSQL table is modelled as a list of participant
rows, and each HTTP handler becomes a function from the request data and
the current table to a response together with the table after the call.

Modelling conventions, fixed once for the whole file:
  * JavaScript numbers are modelled as exact rationals (`ℚ`); the
    IEEE-754 representation of a score is not modelled, so `Math.round`
    becomes exact half-up rounding on `ℚ`.
  * A JSON body field is `Option τ` at the field's declared type; the
    `typeof`/`Number.isInteger` type tests of the validator are absorbed
    by the types (`String`, `Int`, `ℚ`), so a present field always
    carries a value of the right type, and `NaN` does not arise.
  * `String.prototype.trim` and `toLowerCase` are modelled over the
    character list of the string; the whitespace set is the common ASCII
    whitespace plus NBSP and the BOM, and lowercasing is ASCII (the
    names handled by the service are ordinary text, and no claim
    depends on exotic Unicode case pairs).
  * `parseInt` is modelled for the decimal form (optional leading
    whitespace, optional sign, longest run of decimal digits, `none`
    for `NaN`); the `0x` hexadecimal form is not modelled, no claim
    depends on it.
-/

/-! ## JavaScript string primitives -/

/-- Whitespace characters recognised by `String.prototype.trim`
(restricted to the ASCII whitespace characters plus NBSP and BOM). -/
def isJsWhitespace (c : Char) : Bool :=
  c = ' ' || c = '\t' || c = '\n' || c = '\r' ||
  c = '\x0b' || c = '\x0c' || c = ' ' || c = '﻿'

/-- Model of `String.prototype.trim` on the character list: drop leading
whitespace, then drop trailing whitespace. -/
def jsTrimList (l : List Char) : List Char :=
  List.rdropWhile isJsWhitespace (List.dropWhile isJsWhitespace l)

/-- Model of `String.prototype.trim`. -/
def jsTrim (s : String) : String :=
  ⟨jsTrimList s.data⟩

/-- ASCII lowering of one character (model of `toLowerCase` /
SQL `LOWER` on the characters that occur in names). -/
def jsLowerChar (c : Char) : Char :=
  if 'A' ≤ c ∧ c ≤ 'Z' then Char.ofNat (c.toNat + 32) else c

/-- Model of `String.prototype.toLowerCase` and of SQL `LOWER`. -/
def jsToLower (s : String) : String :=
  ⟨s.data.map jsLowerChar⟩

/-- Split a character list at every dash, the way the anchored UUID
regular expression groups its input. -/
def splitDash : List Char → List (List Char)
  | [] => [[]]
  | c :: rest =>
    match splitDash rest with
    | [] => [[]]
    | g :: gs => if c = '-' then [] :: g :: gs else (c :: g) :: gs

/-- Hexadecimal digit, both cases (the regex carries the `i` flag). -/
def isHexDigit (c : Char) : Bool :=
  ('0' ≤ c && c ≤ '9') || ('a' ≤ c && c ≤ 'f') || ('A' ≤ c && c ≤ 'F')

/-- Model of the `validateUUID` regular expression of `src/index.js`:
`/^[0-9a-f]{8}-[0-9a-f]{4}-[1-5][0-9a-f]{3}-[89ab][0-9a-f]{3}-[0-9a-f]{12}$/i`.
Besides the 8-4-4-4-12 hexadecimal grouping it pins the version digit to
`1`-`5` and the variant digit to `8`, `9`, `a` or `b` (either case). -/
def uuidRegexTest (s : String) : Bool :=
  match splitDash s.data with
  | [a, b, c, d, e] =>
    a.length == 8 && b.length == 4 && c.length == 4 && d.length == 4 &&
    e.length == 12 &&
    a.all isHexDigit && b.all isHexDigit && c.all isHexDigit &&
    d.all isHexDigit && e.all isHexDigit &&
    (match c with | v :: _ => '1' ≤ v && v ≤ '5' | [] => false) &&
    (match d with
     | w :: _ => w = '8' || w = '9' || w = 'a' || w = 'b' || w = 'A' || w = 'B'
     | [] => false)
  | _ => false

/-- Modelled from the spec: "a string matching the standard 8-4-4-4-12
hexadecimal grouping pattern" (glossary entry "UUID-shaped"), with no
constraint on the version or variant digits. -/
def uuidShaped (s : String) : Bool :=
  match splitDash s.data with
  | [a, b, c, d, e] =>
    a.length == 8 && b.length == 4 && c.length == 4 && d.length == 4 &&
    e.length == 12 &&
    a.all isHexDigit && b.all isHexDigit && c.all isHexDigit &&
    d.all isHexDigit && e.all isHexDigit
  | _ => false

/-- Decimal digit value accumulator for `parseIntJS`. -/
def digitsToNat (l : List Char) : ℕ :=
  l.foldl (fun acc c => acc * 10 + (c.toNat - '0'.toNat)) 0

/-- Model of JavaScript `parseInt` on its decimal form: skip leading
whitespace, optional sign, longest run of decimal digits; `none` models
the `NaN` result. -/
def parseIntJS (s : String) : Option Int :=
  let l := s.data.dropWhile isJsWhitespace
  let signed : Int × List Char :=
    match l with
    | '-' :: r => (-1, r)
    | '+' :: r => (1, r)
    | r => (1, r)
  let digits := signed.2.takeWhile (fun c => '0' ≤ c && c ≤ '9')
  if digits = [] then none else some (signed.1 * (digitsToNat digits : Int))

/-- Model of the JavaScript expression `x || d` for a number `x` that may
be `NaN` (`none`): `NaN` and `0` are falsy and yield the default. -/
def jsOrInt (o : Option Int) (d : Int) : Int :=
  match o with
  | some n => if n = 0 then d else n
  | none => d

/-- Model of the JavaScript expression `s || d` for a string that may be
`undefined` (`none`): `undefined` and the empty string are falsy. -/
def jsOrStr (o : Option String) (d : String) : String :=
  match o with
  | some s => if s = "" then d else s
  | none => d

/-! ## Average calculator -/

/-- Model of JavaScript `Math.round`: nearest integer, halves rounding
towards positive infinity. -/
def mathRound (x : ℚ) : ℤ :=
  ⌊x + 1 / 2⌋

/-- Model of `calculateFinalAverage` of `src/index.js`:
`Math.round(((first + second) / 2) * 100) / 100`.  The `parseFloat` and
`isNaN` guards of the source cannot fire on `ℚ` inputs, which is the
situation after validation. -/
def calculateFinalAverage (firstSemester secondSemester : ℚ) : ℚ :=
  (mathRound (((firstSemester + secondSemester) / 2) * 100) : ℚ) / 100

/-- Modelled from the spec: "round((first_semester + second_semester) / 2,
2 decimal places)" with half-up rounding — the spec's formula for
`final_average`, written independently of the source. -/
def round2Spec (x : ℚ) : ℚ :=
  (⌊x * 100 + 1 / 2⌋ : ℚ) / 100

/-! ## Data model -/

/-- A row of the `participants` table.  The `created_at` / `updated_at`
columns are set by the storage layer and never read by the handlers, so
they are not modelled. -/
structure Participant where
  id : String
  full_name : String
  age : Int
  first_semester : ℚ
  second_semester : ℚ
  final_average : ℚ
deriving DecidableEq, Repr

/-- The `participants` table. -/
abbrev DB := List Participant

/-- A JSON request body for create/update: each of the four caller
settable fields may be absent.  `final_average` has no field here: the
destructuring in the handlers never reads it from the body. -/
structure Body where
  full_name : Option String
  age : Option Int
  first_semester : Option ℚ
  second_semester : Option ℚ
deriving DecidableEq, Repr

/-- HTTP responses produced by the participant handlers, tagged by
status code. -/
inductive Response where
  | ok (p : Participant)
  | created (p : Participant)
  | noContent
  | badRequest (error : String) (details : List String)
  | notFound (error : String)
  | conflict (error : String)
deriving DecidableEq, Repr

/-- Numeric HTTP status of a response. -/
def Response.status : Response → ℕ
  | .ok _ => 200
  | .created _ => 201
  | .noContent => 204
  | .badRequest _ _ => 400
  | .notFound _ => 404
  | .conflict _ => 409

/-! ## Validator middleware -/

/-- Model of the `validateParticipantData` middleware: per-field checks
on the fields that are present, collecting violation messages in source
order.  The `typeof` and `Number.isInteger` tests are absorbed by the
field types. -/
def validateParticipantData (b : Body) : List String :=
  (match b.full_name with
   | some s =>
     if (jsTrim s).length = 0 then ["full_name deve ser uma string não vazia"]
     else if (jsTrim s).length > 255 then ["full_name deve ter no máximo 255 caracteres"]
     else []
   | none => []) ++
  (match b.age with
   | some a => if a ≤ 0 ∨ a > 150 then ["age deve ser um número inteiro entre 1 e 150"] else []
   | none => []) ++
  (match b.first_semester with
   | some q => if q < 0 ∨ q > 10 then ["first_semester deve ser um número entre 0 e 10"] else []
   | none => []) ++
  (match b.second_semester with
   | some q => if q < 0 ∨ q > 10 then ["second_semester deve ser um número entre 0 e 10"] else []
   | none => [])

/-! ## Handlers

Each Express handler of `src/index.js` is embedded as a pure function.
The middleware chain is mirrored by function composition: the UUID check
and the body validator are separate stages wrapped around the handler
core, exactly as `app.put('/api/participants/:id', validateUUID,
validateParticipantData, handler)` chains them.  A connection from the
pool is only taken inside the cores, so a stage that answers before its
core models an answer produced without any storage access. -/

/-- Model of the `validateUUID` middleware: the `!id` falsy guard, then
the regular expression test.  `k` is the rest of the chain. -/
def withUUIDCheck (id : String) (db : DB) (k : Response × DB) : Response × DB :=
  if id = "" then (.badRequest "ID é obrigatório" [], db)
  else if uuidRegexTest id then k
  else (.badRequest "ID deve ser um UUID válido" [], db)

/-- Storage lookup stage of `GET /api/participants/:id`: `SELECT * FROM
participants WHERE id = $1`, then 404 on an empty row set. -/
def lookupParticipant (db : DB) (id : String) : Response :=
  match db.find? (fun p => p.id == id) with
  | none => .notFound "Participante não encontrado"
  | some p => .ok p

/-- Model of `GET /api/participants/:id` (reads never change the table,
so only the response is returned). -/
def getParticipantById (db : DB) (id : String) : Response :=
  (withUUIDCheck id db (lookupParticipant db id, db)).1

/-- Core of `POST /api/participants`, after the body validator: required
field check (with the `!full_name` falsy test), name normalisation,
average computation, case-insensitive duplicate check, insert. -/
def postCore (db : DB) (b : Body) (newId : String) : Response × DB :=
  match b.full_name, b.age, b.first_semester, b.second_semester with
  | some fn, some ag, some fs, some ss =>
    if fn = "" then
      (.badRequest "Campos obrigatórios: full_name, age, first_semester, second_semester" [], db)
    else
      let normalizedName := jsTrim fn
      let fa := calculateFinalAverage fs ss
      if db.any (fun p => jsToLower p.full_name == jsToLower normalizedName) then
        (.conflict "Já existe um participante com este nome", db)
      else
        let p : Participant :=
          { id := newId, full_name := normalizedName, age := ag,
            first_semester := fs, second_semester := ss, final_average := fa }
        (.created p, db ++ [p])
  | _, _, _, _ =>
    (.badRequest "Campos obrigatórios: full_name, age, first_semester, second_semester" [], db)

/-- Model of `POST /api/participants`: the `validateParticipantData`
middleware, then the handler core.  `newId` stands for the
`gen_random_uuid()` value chosen by the storage layer. -/
def postParticipants (db : DB) (b : Body) (newId : String) : Response × DB :=
  let errors := validateParticipantData b
  if errors = [] then postCore db b newId
  else (.badRequest "Dados inválidos" errors, db)

/-- Core of `PUT /api/participants/:id`, after both middlewares:
existence check, merge of present fields over the current row (the
supplied name is trimmed), conditional uniqueness check (skipped when
the trimmed lowercased new name equals the lowercased current name),
average recomputation, row update. -/
def putCore (db : DB) (id : String) (b : Body) : Response × DB :=
  match db.find? (fun p => p.id == id) with
  | none => (.notFound "Participante não encontrado", db)
  | some current =>
    let updatedName :=
      match b.full_name with
      | some s => jsTrim s
      | none => current.full_name
    let updatedAge := b.age.getD current.age
    let updatedFirst := b.first_semester.getD current.first_semester
    let updatedSecond := b.second_semester.getD current.second_semester
    let nameConflict :=
      match b.full_name with
      | some s =>
        if jsToLower (jsTrim s) ≠ jsToLower current.full_name then
          db.any (fun p => jsToLower p.full_name == jsToLower updatedName && p.id != id)
        else false
      | none => false
    if nameConflict then (.conflict "Já existe outro participante com este nome", db)
    else
      let fa := calculateFinalAverage updatedFirst updatedSecond
      let p : Participant :=
        { id := id, full_name := updatedName, age := updatedAge,
          first_semester := updatedFirst, second_semester := updatedSecond,
          final_average := fa }
      (.ok p, db.map (fun q => if q.id == id then p else q))

/-- Body-validation stage of `PUT /api/participants/:id`. -/
def putHandler (db : DB) (id : String) (b : Body) : Response × DB :=
  let errors := validateParticipantData b
  if errors = [] then putCore db id b
  else (.badRequest "Dados inválidos" errors, db)

/-- Model of `PUT /api/participants/:id`: `validateUUID`, then
`validateParticipantData`, then the handler core. -/
def putParticipants (db : DB) (id : String) (b : Body) : Response × DB :=
  withUUIDCheck id db (putHandler db id b)

/-- Core of `DELETE /api/participants/:id`: `DELETE ... WHERE id = $1
RETURNING id`, 404 when no row came back, else 204 with empty body. -/
def deleteCore (db : DB) (id : String) : Response × DB :=
  if db.any (fun p => p.id == id) then
    (.noContent, db.filter (fun p => p.id != id))
  else (.notFound "Participante não encontrado", db)

/-- Model of `DELETE /api/participants/:id`: `validateUUID`, then the
handler core. -/
def deleteParticipants (db : DB) (id : String) : Response × DB :=
  withUUIDCheck id db (deleteCore db id)

/-! ## List handler -/

/-- Sort fields accepted by `GET /api/participants`. -/
def allowedSortFields : List String :=
  ["full_name", "age", "final_average", "first_semester", "second_semester"]

/-- Effective page size of `GET /api/participants`:
`Math.min(parseInt(req.query.limit) || 50, 100)`. -/
def effectiveLimit (limitParam : Option String) : Int :=
  min (jsOrInt (limitParam.bind parseIntJS) 50) 100

/-- Effective page number: `parseInt(req.query.page) || 1`. -/
def effectivePage (pageParam : Option String) : Int :=
  jsOrInt (pageParam.bind parseIntJS) 1

/-- Outcome of the list endpoint up to the storage call: either the 400
answer for a bad sort field (produced before any storage access), or
the parameters of the SQL query that is issued. -/
inductive ListResult where
  | badRequest (error : String)
  | query (sortBy : String) (sortOrder : String) (limit : Int) (offset : Int)
deriving DecidableEq, Repr

/-- Model of `GET /api/participants` up to the storage call: pagination
parameters, sort parameters (`req.query.sortBy || 'full_name'`,
`=== 'desc'` test), allow-list check, then the query. -/
def getParticipantsList (pageParam limitParam sortByParam sortOrderParam : Option String) :
    ListResult :=
  let limit := effectiveLimit limitParam
  let offset := (effectivePage pageParam - 1) * limit
  let sortBy := jsOrStr sortByParam "full_name"
  let sortOrder := if sortOrderParam = some "desc" then "DESC" else "ASC"
  if allowedSortFields.contains sortBy then .query sortBy sortOrder limit offset
  else .badRequest "Campo de ordenação inválido"

/-! ## Helper lemmas -/

/-- The source's `Math.round(((f + s) / 2) * 100) / 100` agrees with the
spec's "round to 2 decimal places, half-up" applied to the mean. -/
theorem calculateFinalAverage_eq_round2Spec (f s : ℚ) :
    calculateFinalAverage f s = round2Spec ((f + s) / 2) := rfl

/-- Inversion of a successful create: the shape of the stored record and
of the table after the insert. -/
theorem postParticipants_created_inv {db : DB} {b : Body} {newId : String}
    {p : Participant} {db2 : DB}
    (h : postParticipants db b newId = (.created p, db2)) :
    validateParticipantData b = [] ∧
    ∃ fn ag fs ss, b.full_name = some fn ∧ b.age = some ag ∧
      b.first_semester = some fs ∧ b.second_semester = some ss ∧ fn ≠ "" ∧
      db.any (fun q => jsToLower q.full_name == jsToLower (jsTrim fn)) = false ∧
      p = { id := newId, full_name := jsTrim fn, age := ag, first_semester := fs,
            second_semester := ss, final_average := calculateFinalAverage fs ss } ∧
      db2 = db ++ [p] := by
  simp only [postParticipants] at h
  split at h
  case isFalse => simp at h
  case isTrue hv =>
    refine ⟨hv, ?_⟩
    simp only [postCore] at h
    split at h
    case h_2 => simp at h
    case h_1 fn ag fs ss hfn hag hfs hss =>
      split at h
      case isTrue => simp at h
      case isFalse hne =>
        split at h
        case isTrue => simp at h
        case isFalse hdup =>
          rw [Prod.mk.injEq] at h
          obtain ⟨hp, hdb⟩ := h
          injection hp with hp
          simp only [Bool.not_eq_true] at hdup
          exact ⟨fn, ag, fs, ss, hfn, hag, hfs, hss, hne, hdup, hp.symm,
            by rw [← hdb, hp]⟩

/-- Inversion of a successful update: the shape of the updated record
(merge of present fields over the current row) and of the table after
the `UPDATE`. -/
theorem putParticipants_ok_inv {db : DB} {id : String} {b : Body}
    {p : Participant} {db2 : DB}
    (h : putParticipants db id b = (.ok p, db2)) :
    id ≠ "" ∧ uuidRegexTest id = true ∧ validateParticipantData b = [] ∧
    ∃ cur, db.find? (fun q => q.id == id) = some cur ∧
      p = { id := id,
            full_name := (match b.full_name with
                          | some s => jsTrim s
                          | none => cur.full_name),
            age := b.age.getD cur.age,
            first_semester := b.first_semester.getD cur.first_semester,
            second_semester := b.second_semester.getD cur.second_semester,
            final_average := calculateFinalAverage
              (b.first_semester.getD cur.first_semester)
              (b.second_semester.getD cur.second_semester) } ∧
      db2 = db.map (fun q => if q.id == id then p else q) := by
  simp only [putParticipants, withUUIDCheck] at h
  split at h
  case isTrue => simp at h
  case isFalse hne =>
    split at h
    case isFalse => simp at h
    case isTrue huuid =>
      simp only [putHandler] at h
      split at h
      case isFalse => simp at h
      case isTrue hv =>
        simp only [putCore] at h
        split at h
        case h_1 => simp at h
        case h_2 cur hcur =>
          split at h
          case isTrue => simp at h
          case isFalse hnc =>
            rw [Prod.mk.injEq] at h
            obtain ⟨hp, hdb⟩ := h
            injection hp with hp
            exact ⟨hne, huuid, hv, cur, hcur, hp.symm, by rw [← hdb, hp]⟩

/-! ## Claim theorems -/

/-- C1: after every successful create and every successful update, the
stored `final_average` equals the mean of the two stored semester scores
rounded half-up to 2 decimal places; the body carries no
`final_average` field (the `Body` type has none), so the value is
recomputed on every write. -/
theorem final_average_recomputed (db : DB) (b : Body) (newId id : String)
    (p : Participant) (db2 : DB) :
    (postParticipants db b newId = (.created p, db2) →
      p.final_average = round2Spec ((p.first_semester + p.second_semester) / 2)) ∧
    (putParticipants db id b = (.ok p, db2) →
      p.final_average = round2Spec ((p.first_semester + p.second_semester) / 2)) := by
  constructor
  · intro h
    obtain ⟨-, fn, ag, fs, ss, -, -, -, -, -, -, hp, -⟩ := postParticipants_created_inv h
    subst hp
    rfl
  · intro h
    obtain ⟨-, -, -, cur, -, hp, -⟩ := putParticipants_ok_inv h
    subst hp
    rfl

/-- Concrete create used as the witness input for several claims: the
example of the spec, `{full_name: "Maria Santos", age: 22,
first_semester: 9.0, second_semester: 8.5}`. -/
def mariaBody : Body :=
  { full_name := some "Maria Santos", age := some 22,
    first_semester := some 9, second_semester := some (17 / 2) }

/-- The record stored for `mariaBody` (with `final_average` 8.75). -/
def mariaRec : Participant :=
  { id := "7c9e6679-7425-40de-944b-e07fc1f90ae7", full_name := "Maria Santos",
    age := 22, first_semester := 9, second_semester := 17 / 2,
    final_average := 35 / 4 }

theorem final_average_recomputed_witness :
    postParticipants [] mariaBody "7c9e6679-7425-40de-944b-e07fc1f90ae7"
      = (.created mariaRec, [mariaRec]) ∧
    mariaRec.final_average = round2Spec ((mariaRec.first_semester + mariaRec.second_semester) / 2) :=
  ⟨by with_unfolding_all rfl,
   (final_average_recomputed [] mariaBody "7c9e6679-7425-40de-944b-e07fc1f90ae7"
      "7c9e6679-7425-40de-944b-e07fc1f90ae7" mariaRec [mariaRec]).1
     (by with_unfolding_all rfl)⟩

/-- C2 counterexample: the all-zero id matches the spec's 8-4-4-4-12
hexadecimal grouping pattern, yet the service rejects it with 400 —
its regular expression also pins the version digit to 1-5 and the
variant digit to 8/9/a/b — even when a row with that very id is
stored, so the lookup is never reached. -/
theorem uuid_pattern_counterexample :
    uuidShaped "00000000-0000-0000-0000-000000000000" = true ∧
    uuidRegexTest "00000000-0000-0000-0000-000000000000" = false ∧
    getParticipantById
      [{ id := "00000000-0000-0000-0000-000000000000", full_name := "Maria Santos",
         age := 22, first_semester := 9, second_semester := 17 / 2,
         final_average := 35 / 4 }]
      "00000000-0000-0000-0000-000000000000"
      = .badRequest "ID deve ser um UUID válido" [] :=
  ⟨by decide, by decide, by with_unfolding_all rfl⟩

/-- C2 (amended): for GET/PUT/DELETE by id, the request is rejected with
400 and the table untouched exactly when the id fails the service's
RFC-4122-shaped test (8-4-4-4-12 hex with version digit 1-5 and variant
digit 8/9/a/b, case-insensitive); every id passing that test moves past
id validation — to the storage lookup for GET/DELETE, and to body
validation then lookup for PUT. -/
theorem uuid_validation_gate (db : DB) (id : String) (b : Body) :
    (uuidRegexTest id = false →
      (getParticipantById db id).status = 400 ∧
      (deleteParticipants db id).1.status = 400 ∧ (deleteParticipants db id).2 = db ∧
      (putParticipants db id b).1.status = 400 ∧ (putParticipants db id b).2 = db) ∧
    (uuidRegexTest id = true →
      getParticipantById db id = lookupParticipant db id ∧
      deleteParticipants db id = deleteCore db id ∧
      putParticipants db id b = putHandler db id b) := by
  constructor
  · intro hf
    by_cases hid : id = ""
    · subst hid
      simp [getParticipantById, deleteParticipants, putParticipants, withUUIDCheck,
        Response.status]
    · simp [getParticipantById, deleteParticipants, putParticipants, withUUIDCheck,
        hid, hf, Response.status]
  · intro ht
    have hid : id ≠ "" := by
      rintro rfl
      exact absurd ht (by decide)
    simp [getParticipantById, deleteParticipants, putParticipants, withUUIDCheck, hid, ht]

theorem uuid_validation_gate_witness :
    (getParticipantById [] "not-a-uuid").status = 400 ∧
    getParticipantById [] "123e4567-e89b-12d3-a456-426614174000"
      = lookupParticipant [] "123e4567-e89b-12d3-a456-426614174000" :=
  ⟨((uuid_validation_gate [] "not-a-uuid" mariaBody).1 (by decide)).1,
   ((uuid_validation_gate [] "123e4567-e89b-12d3-a456-426614174000" mariaBody).2
      (by decide)).1⟩

/-- C3 counterexample: the limit value "-5" parses to -5, which
`Math.min(..., 100)` only caps from above, so the SQL query is issued
with the effective limit -5 — outside [1,100]. -/
theorem limit_clamp_counterexample :
    getParticipantsList none (some "-5") none none
      = .query "full_name" "ASC" (-5) 0 ∧
    ¬(1 ≤ effectiveLimit (some "-5") ∧ effectiveLimit (some "-5") ≤ 100) :=
  ⟨by decide, by decide⟩

/-- C3 (amended): the effective page-size limit is capped above by 100
and defaults to 50 when the limit parameter is absent or parses to NaN
or 0; it lies in [1,100] whenever the parsed value is positive or the
default applies, but a negative parsed limit is used unclamped. -/
theorem limit_effective_range (q : Option String) :
    effectiveLimit q ≤ 100 ∧
    (q.bind parseIntJS = none ∨ q.bind parseIntJS = some 0 → effectiveLimit q = 50) ∧
    (∀ n : Int, q.bind parseIntJS = some n → 0 < n →
      1 ≤ effectiveLimit q ∧ effectiveLimit q ≤ 100) ∧
    (∀ n : Int, q.bind parseIntJS = some n → n < 0 → effectiveLimit q = n) := by
  unfold effectiveLimit jsOrInt
  refine ⟨min_le_right _ _, ?_, ?_, ?_⟩
  · rintro (h | h) <;> simp [h]
  · intro n h hpos
    simp only [h]
    constructor
    · rcases eq_or_ne n 0 with rfl | hne
      · omega
      · simp only [if_neg hne]
        omega
    · exact min_le_right _ _
  · intro n h hneg
    simp only [h, if_neg (by omega : n ≠ 0)]
    omega

theorem limit_effective_range_witness :
    1 ≤ effectiveLimit (some "200") ∧ effectiveLimit (some "200") ≤ 100 :=
  (limit_effective_range (some "200")).2.2.1 200 (by decide) (by decide)

/-- Body missing only `full_name`, all other fields valid. -/
def missingNameBody : Body :=
  { full_name := none, age := some 22, first_semester := some 9,
    second_semester := some (17 / 2) }

/-- Body missing all four required fields. -/
def emptyBody : Body :=
  { full_name := none, age := none, first_semester := none, second_semester := none }

/-- C4 counterexample: a create missing only `full_name` and a create
missing all four fields receive the identical 400 response naming all
four required fields, so the error cannot be naming exactly the missing
fields; nothing is written either way. -/
theorem missing_fields_message_counterexample :
    (postParticipants [] missingNameBody "nid").1 = (postParticipants [] emptyBody "nid").1 ∧
    (postParticipants [] missingNameBody "nid").1
      = .badRequest "Campos obrigatórios: full_name, age, first_semester, second_semester" [] ∧
    missingNameBody.age ≠ none ∧ emptyBody.age = none ∧
    (postParticipants [] missingNameBody "nid").2 = [] :=
  ⟨by with_unfolding_all rfl, by with_unfolding_all rfl, by decide, by decide,
   by with_unfolding_all rfl⟩

/-- C4 (amended): a create request missing at least one of the four
required fields is answered with 400 and writes nothing; when the
fields that are present pass validation, the error is the fixed message
naming all four required field names — not exactly the missing ones. -/
theorem create_missing_fields (db : DB) (b : Body) (newId : String)
    (h : b.full_name = none ∨ b.age = none ∨ b.first_semester = none ∨
      b.second_semester = none) :
    (postParticipants db b newId).1.status = 400 ∧
    (postParticipants db b newId).2 = db ∧
    (validateParticipantData b = [] →
      (postParticipants db b newId).1
        = .badRequest "Campos obrigatórios: full_name, age, first_semester, second_semester"
            []) := by
  have hcore : postCore db b newId
      = (.badRequest "Campos obrigatórios: full_name, age, first_semester, second_semester"
          [], db) := by
    unfold postCore
    rcases b with ⟨fn, ag, fs, ss⟩
    rcases fn with _ | fn
    · rfl
    · rcases ag with _ | ag
      · rfl
      · rcases fs with _ | fs
        · rfl
        · rcases ss with _ | ss
          · rfl
          · simp at h
  have hpost : postParticipants db b newId
      = if validateParticipantData b = [] then postCore db b newId
        else (.badRequest "Dados inválidos" (validateParticipantData b), db) := rfl
  rw [hpost]
  by_cases hv : validateParticipantData b = []
  · rw [if_pos hv, hcore]
    exact ⟨rfl, rfl, fun _ => rfl⟩
  · rw [if_neg hv]
    exact ⟨rfl, rfl, fun hc => absurd hc hv⟩

theorem create_missing_fields_witness :
    (postParticipants [] missingNameBody "nid").1.status = 400 ∧
    (postParticipants [] missingNameBody "nid").2 = [] :=
  ⟨(create_missing_fields [] missingNameBody "nid" (Or.inl rfl)).1,
   (create_missing_fields [] missingNameBody "nid" (Or.inl rfl)).2.1⟩

/-- A stored participant used in the conflict scenarios. -/
def aliceRec : Participant :=
  { id := "123e4567-e89b-12d3-a456-426614174000", full_name := "Alice", age := 30,
    first_semester := 7, second_semester := 8, final_average := 15 / 2 }

/-- Create request whose name differs from "Alice" only by surrounding
whitespace. -/
def spacedAliceBody : Body :=
  { full_name := some " Alice ", age := some 30, first_semester := some 7,
    second_semester := some 8 }

/-- C5 counterexample: the supplied name " Alice " is not
case-insensitively equal to the stored name "Alice" (they differ by
surrounding whitespace) and every field is valid, so the claim predicts
201; the service trims before the duplicate check and answers 409,
inserting nothing. -/
theorem create_conflict_counterexample :
    jsToLower " Alice " ≠ jsToLower "Alice" ∧
    validateParticipantData spacedAliceBody = [] ∧
    postParticipants [aliceRec] spacedAliceBody "nid"
      = (.conflict "Já existe um participante com este nome", [aliceRec]) :=
  ⟨by decide, by with_unfolding_all rfl, by with_unfolding_all rfl⟩

/-- If validation passed and `full_name` was present, the supplied name
was not the empty string (the falsy `!full_name` guard cannot fire). -/
theorem valid_full_name_ne_empty {b : Body} {fn : String} (hfn : b.full_name = some fn)
    (hv : validateParticipantData b = []) : fn ≠ "" := by
  rintro rfl
  unfold validateParticipantData at hv
  rw [hfn] at hv
  dsimp only at hv
  rw [if_pos (by decide : (jsTrim "").length = 0)] at hv
  simp at hv

/-- C5 (amended): a fully valid create is rejected with 409 and inserts
no row exactly when some stored participant's lowercased name equals
the lowercased TRIMMED supplied name; otherwise it answers 201 and
appends the stored record. -/
theorem create_name_conflict (db : DB) (fn : String) (ag : Int) (fs ss : ℚ)
    (newId : String)
    (hv : validateParticipantData ⟨some fn, some ag, some fs, some ss⟩ = []) :
    (db.any (fun q => jsToLower q.full_name == jsToLower (jsTrim fn)) = true →
      postParticipants db ⟨some fn, some ag, some fs, some ss⟩ newId
        = (.conflict "Já existe um participante com este nome", db)) ∧
    (db.any (fun q => jsToLower q.full_name == jsToLower (jsTrim fn)) = false →
      postParticipants db ⟨some fn, some ag, some fs, some ss⟩ newId
        = (.created { id := newId, full_name := jsTrim fn, age := ag,
                      first_semester := fs, second_semester := ss,
                      final_average := calculateFinalAverage fs ss },
           db ++ [{ id := newId, full_name := jsTrim fn, age := ag,
                    first_semester := fs, second_semester := ss,
                    final_average := calculateFinalAverage fs ss }])) := by
  have hne : fn ≠ "" := valid_full_name_ne_empty rfl hv
  constructor
  · intro hdup
    simp [postParticipants, hv, postCore, hne, hdup]
  · intro hdup
    simp [postParticipants, hv, postCore, hne, hdup]

theorem create_name_conflict_witness :
    postParticipants [aliceRec]
        ⟨some " Alice ", some 30, some 7, some 8⟩ "nid"
      = (.conflict "Já existe um participante com este nome", [aliceRec]) :=
  (create_name_conflict [aliceRec] " Alice " 30 7 8 "nid"
      (by with_unfolding_all rfl)).1 (by with_unfolding_all rfl)

/-- A stored participant used in the update scenarios. -/
def bobRec : Participant :=
  { id := "123e4567-e89b-12d3-a456-426614174001", full_name := "Bob", age := 40,
    first_semester := 6, second_semester := 7, final_average := 13 / 2 }

/-- C6 counterexample: an update supplying full_name " Bob " succeeds
with 200, but the stored name is the trimmed "Bob", not the supplied
value — a present field does not take the supplied value verbatim. -/
theorem update_supplied_value_counterexample :
    putParticipants [bobRec] "123e4567-e89b-12d3-a456-426614174001"
        ⟨some " Bob ", none, none, none⟩
      = (.ok bobRec, [bobRec]) ∧
    bobRec.full_name ≠ " Bob " :=
  ⟨by with_unfolding_all rfl, by decide⟩

/-- C6 (amended): every successful update answers 200 (`Response.ok`);
absent fields retain the current stored values, present fields take the
supplied value — except `full_name`, which takes the TRIMMED supplied
value — and the id is unchanged. -/
theorem update_merge_semantics (db : DB) (id : String) (b : Body)
    (p : Participant) (db2 : DB)
    (h : putParticipants db id b = (.ok p, db2)) :
    ∃ cur, db.find? (fun q => q.id == id) = some cur ∧
      p.id = id ∧
      p.full_name = (match b.full_name with
                     | some s => jsTrim s
                     | none => cur.full_name) ∧
      p.age = b.age.getD cur.age ∧
      p.first_semester = b.first_semester.getD cur.first_semester ∧
      p.second_semester = b.second_semester.getD cur.second_semester := by
  obtain ⟨-, -, -, cur, hcur, hp, -⟩ := putParticipants_ok_inv h
  subst hp
  exact ⟨cur, hcur, rfl, rfl, rfl, rfl, rfl⟩

theorem update_merge_semantics_witness :
    ∃ cur, ([bobRec] : DB).find?
        (fun q => q.id == "123e4567-e89b-12d3-a456-426614174001") = some cur ∧
      ({ id := "123e4567-e89b-12d3-a456-426614174001", full_name := "Bob", age := 41,
         first_semester := (6 : ℚ), second_semester := (7 : ℚ),
         final_average := (13 / 2 : ℚ) } : Participant).id
        = "123e4567-e89b-12d3-a456-426614174001" ∧
      ({ id := "123e4567-e89b-12d3-a456-426614174001", full_name := "Bob", age := 41,
         first_semester := (6 : ℚ), second_semester := (7 : ℚ),
         final_average := (13 / 2 : ℚ) } : Participant).full_name
        = (match (none : Option String) with
           | some s => jsTrim s
           | none => cur.full_name) ∧
      ({ id := "123e4567-e89b-12d3-a456-426614174001", full_name := "Bob", age := 41,
         first_semester := (6 : ℚ), second_semester := (7 : ℚ),
         final_average := (13 / 2 : ℚ) } : Participant).age
        = (some (41 : Int)).getD cur.age ∧
      ({ id := "123e4567-e89b-12d3-a456-426614174001", full_name := "Bob", age := 41,
         first_semester := (6 : ℚ), second_semester := (7 : ℚ),
         final_average := (13 / 2 : ℚ) } : Participant).first_semester
        = (none : Option ℚ).getD cur.first_semester ∧
      ({ id := "123e4567-e89b-12d3-a456-426614174001", full_name := "Bob", age := 41,
         first_semester := (6 : ℚ), second_semester := (7 : ℚ),
         final_average := (13 / 2 : ℚ) } : Participant).second_semester
        = (none : Option ℚ).getD cur.second_semester :=
  update_merge_semantics [bobRec] "123e4567-e89b-12d3-a456-426614174001"
    ⟨none, some 41, none, none⟩ _ _ (by with_unfolding_all rfl)

/-- C7 counterexample: the sortBy value "" is present and not in the
allow-list, yet `req.query.sortBy || 'full_name'` treats it as falsy,
defaults to full_name and issues the query instead of answering 400. -/
theorem sort_field_counterexample :
    allowedSortFields.contains "" = false ∧
    getParticipantsList none none (some "") none = .query "full_name" "ASC" 50 0 :=
  ⟨by decide, by decide⟩

/-- C7 (amended): a present, non-empty sortBy outside the allow-list is
answered with 400 before the query is formed; an allow-listed sortBy —
or an absent or empty one, which defaults to full_name — proceeds with
the query ordered by the resolved field. -/
theorem sort_field_allowlist (pg lim sb so : Option String) :
    (∀ s, sb = some s → s ≠ "" → allowedSortFields.contains s = false →
      getParticipantsList pg lim sb so = .badRequest "Campo de ordenação inválido") ∧
    (allowedSortFields.contains (jsOrStr sb "full_name") = true →
      getParticipantsList pg lim sb so
        = .query (jsOrStr sb "full_name")
            (if so = some "desc" then "DESC" else "ASC")
            (effectiveLimit lim) ((effectivePage pg - 1) * effectiveLimit lim)) := by
  constructor
  · intro s hs hne hnc
    have hmem : s ∉ allowedSortFields := by simpa using hnc
    simp [getParticipantsList, jsOrStr, hs, hne, hmem]
  · intro hc
    have hmem : jsOrStr sb "full_name" ∈ allowedSortFields := by simpa using hc
    simp [getParticipantsList, hmem]

theorem sort_field_allowlist_witness :
    getParticipantsList none none (some "banana") none
      = .badRequest "Campo de ordenação inválido" :=
  (sort_field_allowlist none none (some "banana") none).1 "banana" rfl
    (by decide) (by decide)

/-- Passing the id validation stage: a non-empty id accepted by the
regular expression reaches the rest of the middleware chain. -/
theorem withUUIDCheck_pass {id : String} (h : uuidRegexTest id = true) (db : DB)
    (k : Response × DB) : withUUIDCheck id db k = k := by
  have hid : id ≠ "" := by
    rintro rfl
    exact absurd h (by decide)
  simp [withUUIDCheck, hid, h]

/-- C8: for every id passing the service's id validation, delete answers
204 with empty body exactly when a row with that id exists — removing
the rows carrying that id and no others — and 404 when none does; a get
of the same id right after a successful delete answers 404. -/
theorem delete_then_get (db : DB) (id : String) (hid : uuidRegexTest id = true) :
    ((∃ p ∈ db, p.id = id) →
      deleteParticipants db id = (.noContent, db.filter (fun p => p.id != id)) ∧
      (∀ q ∈ db, q.id ≠ id → q ∈ db.filter (fun p => p.id != id)) ∧
      getParticipantById (db.filter (fun p => p.id != id)) id
        = .notFound "Participante não encontrado") ∧
    ((¬ ∃ p ∈ db, p.id = id) →
      deleteParticipants db id = (.notFound "Participante não encontrado", db)) := by
  constructor
  · intro hex
    have hany : db.any (fun p => p.id == id) = true := by
      rw [List.any_eq_true]
      obtain ⟨p, hp, hpid⟩ := hex
      exact ⟨p, hp, by simp [hpid]⟩
    refine ⟨?_, ?_, ?_⟩
    · rw [deleteParticipants, withUUIDCheck_pass hid, deleteCore, if_pos hany]
    · intro q hq hne
      rw [List.mem_filter]
      exact ⟨hq, by simp [hne]⟩
    · rw [getParticipantById, withUUIDCheck_pass hid]
      have hnone : (db.filter (fun p => p.id != id)).find? (fun p => p.id == id) = none := by
        rw [List.find?_eq_none]
        intro x hx
        rw [List.mem_filter] at hx
        simpa using hx.2
      rw [lookupParticipant, hnone]
  · intro hnex
    have hany : db.any (fun p => p.id == id) = false := by
      rw [Bool.eq_false_iff]
      intro hc
      rw [List.any_eq_true] at hc
      obtain ⟨p, hp, hpid⟩ := hc
      exact hnex ⟨p, hp, by simpa using hpid⟩
    rw [deleteParticipants, withUUIDCheck_pass hid, deleteCore, hany]
    rfl

theorem delete_then_get_witness :
    deleteParticipants [aliceRec] "123e4567-e89b-12d3-a456-426614174000"
      = (.noContent,
         ([aliceRec] : DB).filter
           (fun p => p.id != "123e4567-e89b-12d3-a456-426614174000")) ∧
    getParticipantById
        (([aliceRec] : DB).filter
          (fun p => p.id != "123e4567-e89b-12d3-a456-426614174000"))
        "123e4567-e89b-12d3-a456-426614174000"
      = .notFound "Participante não encontrado" :=
  ⟨((delete_then_get [aliceRec] "123e4567-e89b-12d3-a456-426614174000"
      (by decide)).1 ⟨aliceRec, by simp, rfl⟩).1,
   ((delete_then_get [aliceRec] "123e4567-e89b-12d3-a456-426614174000"
      (by decide)).1 ⟨aliceRec, by simp, rfl⟩).2.2⟩

/-- C9: when the supplied full_name, trimmed and lowercased, equals the
target record's current name lowercased (a change of letter case or
surrounding whitespace only), the rename is accepted with 200 whatever
the rest of the table contains — the uniqueness check is skipped; and a
409 can only arise when the normalised supplied name differs from the
current one. -/
theorem update_rename_check_skipped (db : DB) (id : String) (b : Body) (s : String)
    (cur : Participant)
    (hid : uuidRegexTest id = true)
    (hv : validateParticipantData b = [])
    (hcur : db.find? (fun q => q.id == id) = some cur)
    (hs : b.full_name = some s) :
    (jsToLower (jsTrim s) = jsToLower cur.full_name →
      (putParticipants db id b).1.status = 200) ∧
    (∀ e d2, putParticipants db id b = (.conflict e, d2) →
      jsToLower (jsTrim s) ≠ jsToLower cur.full_name) := by
  have hmain : jsToLower (jsTrim s) = jsToLower cur.full_name →
      (putParticipants db id b).1.status = 200 := by
    intro heq
    rw [putParticipants, withUUIDCheck_pass hid]
    simp only [putHandler]
    rw [if_pos hv]
    simp only [putCore]
    rw [hcur]
    dsimp only
    rw [hs]
    dsimp only
    rw [if_neg (not_not_intro heq)]
    rfl
  refine ⟨hmain, ?_⟩
  intro e d2 hconf heq
  have h200 := hmain heq
  rw [hconf] at h200
  simp [Response.status] at h200

theorem update_rename_check_skipped_witness :
    (putParticipants
        [bobRec,
         { id := "123e4567-e89b-12d3-a456-426614174002", full_name := "bob", age := 25,
           first_semester := 5, second_semester := 5, final_average := 5 }]
        "123e4567-e89b-12d3-a456-426614174001"
        ⟨some " BOB ", none, none, none⟩).1.status = 200 :=
  (update_rename_check_skipped
      [bobRec,
       { id := "123e4567-e89b-12d3-a456-426614174002", full_name := "bob", age := 25,
         first_semester := 5, second_semester := 5, final_average := 5 }]
      "123e4567-e89b-12d3-a456-426614174001"
      ⟨some " BOB ", none, none, none⟩ " BOB " bobRec
      (by decide) (by decide) (by with_unfolding_all rfl) rfl).1 (by decide)

/-- If dropping leading whitespace from `t ++ u` changes nothing, it
changes nothing on `t` alone. -/
theorem dropWhile_eq_self_of_append {p : Char → Bool} {t u : List Char}
    (h : List.dropWhile p (t ++ u) = t ++ u) : List.dropWhile p t = t := by
  cases t with
  | nil => rfl
  | cons a t2 =>
    rw [List.cons_append, List.dropWhile_cons] at h
    by_cases hp : p a = true
    · rw [if_pos hp] at h
      have hle : (List.dropWhile p (t2 ++ u)).length ≤ (t2 ++ u).length :=
        (List.dropWhile_suffix p).length_le
      rw [h] at hle
      simp at hle
    · rw [List.dropWhile_cons, if_neg hp]

/-- The result of the modelled trim has no surrounding whitespace: both
a further leading drop and a further trailing drop are identities. -/
theorem jsTrimList_trimmed (l : List Char) :
    List.dropWhile isJsWhitespace (jsTrimList l) = jsTrimList l ∧
    List.rdropWhile isJsWhitespace (jsTrimList l) = jsTrimList l := by
  constructor
  · have hsuf : List.dropWhile isJsWhitespace (l.dropWhile isJsWhitespace).reverse
        <:+ (l.dropWhile isJsWhitespace).reverse := List.dropWhile_suffix _
    obtain ⟨pre, hpre⟩ := hsuf
    have happ : jsTrimList l ++ pre.reverse = l.dropWhile isJsWhitespace := by
      have hrev := congrArg List.reverse hpre
      simpa [jsTrimList, List.rdropWhile] using hrev
    have hA : List.dropWhile isJsWhitespace (jsTrimList l ++ pre.reverse)
        = jsTrimList l ++ pre.reverse := by
      rw [happ]
      exact List.dropWhile_idempotent _ _
    exact dropWhile_eq_self_of_append hA
  · exact List.rdropWhile_idempotent _ _

/-- A string with no surrounding whitespace: dropping leading or
trailing whitespace changes nothing. -/
def noSurroundingWS (s : String) : Prop :=
  List.dropWhile isJsWhitespace s.data = s.data ∧
  List.rdropWhile isJsWhitespace s.data = s.data

/-- The modelled trim always yields a string with no surrounding
whitespace. -/
theorem jsTrim_noSurroundingWS (s : String) : noSurroundingWS (jsTrim s) :=
  jsTrimList_trimmed s.data

/-- C10: every row written by create stores the trimmed supplied name; a
row written by update stores the trimmed supplied name, or the
unchanged current name when the body carries none; hence any name that
a create or a name-supplying update writes has no surrounding
whitespace. -/
theorem stored_names_trimmed (db : DB) (b : Body) (newId id : String)
    (p : Participant) (db2 : DB) :
    (postParticipants db b newId = (.created p, db2) →
      (∃ fn, b.full_name = some fn ∧ p.full_name = jsTrim fn) ∧
      noSurroundingWS p.full_name) ∧
    (putParticipants db id b = (.ok p, db2) →
      ∃ cur, db.find? (fun q => q.id == id) = some cur ∧
        p.full_name = (match b.full_name with
                       | some s => jsTrim s
                       | none => cur.full_name) ∧
        (b.full_name = none → p.full_name = cur.full_name) ∧
        (∀ s, b.full_name = some s → noSurroundingWS p.full_name)) := by
  constructor
  · intro h
    obtain ⟨-, fn, ag, fs, ss, hfn, -, -, -, -, -, hp, -⟩ := postParticipants_created_inv h
    subst hp
    exact ⟨⟨fn, hfn, rfl⟩, jsTrim_noSurroundingWS fn⟩
  · intro h
    obtain ⟨-, -, -, cur, hcur, hp, -⟩ := putParticipants_ok_inv h
    subst hp
    refine ⟨cur, hcur, rfl, ?_, ?_⟩
    · intro hnone
      rw [hnone]
    · intro s hs
      rw [hs]
      exact jsTrim_noSurroundingWS s

/-- The record stored when `spacedAliceBody` is created on an empty
table. -/
def alicePost : Participant :=
  { id := "nid2", full_name := "Alice", age := 30, first_semester := 7,
    second_semester := 8, final_average := 15 / 2 }

theorem stored_names_trimmed_witness :
    (∃ fn, spacedAliceBody.full_name = some fn ∧ alicePost.full_name = jsTrim fn) ∧
    noSurroundingWS alicePost.full_name :=
  (stored_names_trimmed [] spacedAliceBody "nid2" "nid2" alicePost [alicePost]).1
    (by with_unfolding_all rfl)
